import Mathlib

/-!
Verification development for the forward command controller
(`forward_command_controller_new_components.cpp`).

The controller is embedded shallowly:

* `ControllerState` holds the member variables of
  `ForwardCommandControllerNewComponents`: `joint_handles_` (a list of claimed
  handles), `interfaces_` (the list of requested interface names),
  `rt_command_ptr_` (the realtime buffer slot, `none` when no message was ever
  written, mirroring the `nullptr` initialisation in the constructor), and
  `joints_command_subscriber_` (whether the subscription was created).
* The Resource Claim Registry (`resource_manager_`) is an external
  collaborator; it is modelled as a pair of functions
  `check_command_interfaces` (returning `true` for
  `hardware_interface::return_type::OK`) and `claim_command_handle`
  (returning `some handle` on `OK`, `none` on error).  The `weak_ptr::lock`
  of the resource manager is modelled by an `Option (Registry H)`.
* Joint handles are opaque values of a type parameter `H`; command values are
  opaque values of a type parameter `α` (the code forwards doubles without
  inspecting them, so the embedding is polymorphic in the value type).
* `update` returns, besides the `controller_interface::return_type`, the trace
  of `set_command` calls performed in that cycle, each recording the handle,
  the one-element value vector, the interface list passed, and the result that
  the external `set_command` oracle produced for that call (the C++ code
  discards this result).
* Logging calls (`RCLCPP_ERROR_STREAM`, the throttled variant, and
  `RCLCPP_INFO_STREAM`) have no effect on the controller state and are not
  modelled.
-/

namespace ForwardCommandController

/-- `controller_interface::ControllerInterfaceNewComponents::CallbackReturn`. -/
inductive CallbackReturn
  | SUCCESS
  | ERROR
deriving DecidableEq

/-- `controller_interface::return_type`, the per-cycle status of `update`. -/
inductive return_type
  | SUCCESS
  | ERROR
deriving DecidableEq

/-- The Resource Claim Registry collaborator (`hardware_interface`
resource manager), restricted to the two operations the controller calls:
`check_command_interfaces` (availability check, `true` for `OK`) and
`claim_command_handle` (`some h` when the claim succeeds with handle `h`,
`none` when it fails). -/
structure Registry (H : Type) where
  check_command_interfaces : String → List String → Bool
  claim_command_handle : String → List String → Option H

/-- The environment an `on_configure` call runs in: the two node parameters
(`none` when `get_parameter` reports the parameter as not set) and the result
of locking the weak pointer to the resource manager (`none` when the lock
fails). -/
structure ConfigureEnv (H : Type) where
  joints_param : Option (List String)
  interface_param : Option String
  resource_manager : Option (Registry H)

/-- The member variables of `ForwardCommandControllerNewComponents`. -/
structure ControllerState (H α : Type) where
  joint_handles : List H
  interfaces : List String
  rt_command : Option (List α)
  joints_command_subscriber : Bool

/-- The state built by the constructor: `joint_handles_()` empty,
`interfaces_` default-empty, `rt_command_ptr_(nullptr)`,
`joints_command_subscriber_(nullptr)`. -/
def initial_state (H α : Type) : ControllerState H α :=
  { joint_handles := []
    interfaces := []
    rt_command := none
    joints_command_subscriber := false }

/-- The subscription callback body: `rt_command_ptr_.writeFromNonRT(msg)` —
the single-slot realtime buffer is overwritten with the new message. -/
def writeFromNonRT (msg : List α) (s : ControllerState H α) : ControllerState H α :=
  { s with rt_command := some msg }

/-- The claim loop of `on_configure` (source lines 90–105): walk the joint
names in order; for each, call `claim_command_handle` with the member
`interfaces_`; on the first failure clear `joint_handles_` entirely and return
`ERROR`; on success append the handle with `emplace_back`.  When the loop
completes, the source creates the command subscription and returns `SUCCESS`
(lines 113–123); that tail is folded into the base case here. -/
def claim_loop (rm : Registry H) (names : List String) (s : ControllerState H α) :
    CallbackReturn × ControllerState H α :=
  match names with
  | [] => (CallbackReturn.SUCCESS, { s with joints_command_subscriber := true })
  | joint_name :: rest =>
    match rm.claim_command_handle joint_name s.interfaces with
    | none => (CallbackReturn.ERROR, { s with joint_handles := [] })
    | some joint_handle =>
      claim_loop rm rest { s with joint_handles := s.joint_handles ++ [joint_handle] }

/-- `ForwardCommandControllerNewComponents::on_configure` (source lines
42–124).  In source order: read the `joints` parameter (not set → `ERROR`),
read the `interface_name` parameter (not set → `ERROR`), reject an empty joint
list, reject an empty interface name, `interfaces_.push_back(interface_name)`,
lock the resource manager (failure → `ERROR`), check availability of every
joint against the member `interfaces_` returning `ERROR` at the first
unavailable joint (the short-circuiting `List.all` computes the same
conjunction), then run the claim loop.  Note that the source never clears
`interfaces_` or `joint_handles_` on entry. -/
def on_configure (env : ConfigureEnv H) (s : ControllerState H α) :
    CallbackReturn × ControllerState H α :=
  match env.joints_param with
  | none => (CallbackReturn.ERROR, s)
  | some joint_names =>
    match env.interface_param with
    | none => (CallbackReturn.ERROR, s)
    | some interface_name =>
      if joint_names = [] then (CallbackReturn.ERROR, s)
      else if interface_name = "" then (CallbackReturn.ERROR, s)
      else
        let s1 : ControllerState H α :=
          { s with interfaces := s.interfaces ++ [interface_name] }
        match env.resource_manager with
        | none => (CallbackReturn.ERROR, s1)
        | some rm =>
          if joint_names.all
              (fun joint_name => rm.check_command_interfaces joint_name s1.interfaces) then
            claim_loop rm joint_names s1
          else (CallbackReturn.ERROR, s1)

/-- `on_activate` (source lines 126–130): `return CallbackReturn::SUCCESS;`
with no other statement. -/
def on_activate (s : ControllerState H α) : CallbackReturn × ControllerState H α :=
  (CallbackReturn.SUCCESS, s)

/-- `on_deactivate` (source lines 132–136): `return CallbackReturn::SUCCESS;`
with no other statement. -/
def on_deactivate (s : ControllerState H α) : CallbackReturn × ControllerState H α :=
  (CallbackReturn.SUCCESS, s)

/-- One `set_command` call as performed by the `update` loop: the handle it
was invoked on, the one-element value vector `data`, the interface list
passed, and the result the external call returned (discarded by the C++
code). -/
structure SetCommandCall (H α : Type) where
  handle : H
  values : List α
  interfaces : List String
  result : return_type

/-- `ForwardCommandControllerNewComponents::update` (source lines 138–167),
parameterised by the external `set_command` behaviour of the claimed joint
components.  `readFromRT` yields the buffer slot; a `none` slot is the
"no command received yet" case (lines 143–145).  A size mismatch between the
message and `joint_handles_` returns `ERROR` before any write (lines
147–157).  Otherwise the loop (lines 159–164) calls
`joint_handles_[index]->set_command({data[index]}, interfaces_)` for each
index in ascending order; the member state is not modified.  The returned
list is the trace of those calls in execution order. -/
def update (set_command : H → List α → List String → return_type)
    (s : ControllerState H α) : return_type × List (SetCommandCall H α) :=
  match s.rt_command with
  | none => (return_type.SUCCESS, [])
  | some joint_commands =>
    if joint_commands.length ≠ s.joint_handles.length then
      (return_type.ERROR, [])
    else
      (return_type.SUCCESS,
        List.zipWith
          (fun joint_handle value =>
            { handle := joint_handle
              values := [value]
              interfaces := s.interfaces
              result := set_command joint_handle [value] s.interfaces })
          s.joint_handles joint_commands)

/-- The in-order sequence of claim results the registry produces for a list
of joint names (all against one interface list): `some hs` when every claim
succeeds, `none` when any claim fails.  This is the reference description of
what the claim loop is expected to store. -/
def claim_all (rm : Registry H) (ifs : List String) : List String → Option (List H)
  | [] => some []
  | n :: rest =>
    match rm.claim_command_handle n ifs with
    | none => none
    | some h =>
      match claim_all rm ifs rest with
      | none => none
      | some hs => some (h :: hs)

/-- Folding a sequence of `on_configure` calls (with their environments) over
a controller state, keeping only the resulting state.  Used to reason about
repeated configuration attempts on the same controller object. -/
def configure_chain (envs : List (ConfigureEnv H)) (s : ControllerState H α) :
    ControllerState H α :=
  match envs with
  | [] => s
  | env :: rest => configure_chain rest (on_configure env s).2

/-- The parameter-presence and non-emptiness checks at the top of
`on_configure` (source lines 45–72): both parameters set, joint list
non-empty, interface name non-empty. -/
def early_checks (env : ConfigureEnv H) : Prop :=
  ∃ names ifn, env.joints_param = some names ∧ names ≠ [] ∧
    env.interface_param = some ifn ∧ ifn ≠ ""

/-- A registry in which exactly the joints in `avail` are registered; a claim
for a registered joint `j` yields the handle `"handle_" ++ j`. -/
def sel_registry (avail : List String) : Registry String :=
  { check_command_interfaces := fun joint_name _ => avail.contains joint_name
    claim_command_handle := fun joint_name _ =>
      if avail.contains joint_name then some ("handle_" ++ joint_name) else none }

/-- A registry in which every joint is available and every claim succeeds. -/
def good_registry : Registry String :=
  { check_command_interfaces := fun _ _ => true
    claim_command_handle := fun joint_name _ => some ("handle_" ++ joint_name) }

/-- A registry in which every availability check passes but every claim
fails. -/
def claim_fail_registry : Registry String :=
  { check_command_interfaces := fun _ _ => true
    claim_command_handle := fun _ _ => none }

/-- A `set_command` oracle in which every write succeeds. -/
def all_ok_set_command : String → List ℚ → List String → return_type :=
  fun _ _ _ => return_type.SUCCESS

/-- A `set_command` oracle in which every write fails. -/
def all_fail_set_command : String → List ℚ → List String → return_type :=
  fun _ _ _ => return_type.ERROR

/-- The configuration environment of testable property P6: joints
`["j1","j2","j3"]`, interface `"velocity"`, all joints available. -/
def p6_env : ConfigureEnv String :=
  { joints_param := some ["j1", "j2", "j3"]
    interface_param := some "velocity"
    resource_manager := some good_registry }

/-- The state of a freshly constructed controller configured with `p6_env`. -/
def p6_state : ControllerState String ℚ :=
  (on_configure p6_env (initial_state String ℚ)).2

/-- `p6_state` after the inbound message `[1.0, 2.0, 3.0]` arrives. -/
def p6_loaded : ControllerState String ℚ :=
  writeFromNonRT [1, 2, 3] p6_state

/-- `p6_state` after an ill-sized inbound message `[1.0, 2.0]` arrives. -/
def p6_short : ControllerState String ℚ :=
  writeFromNonRT [1, 2] p6_state

/-- A controller state holding one claimed handle, as left by a successful
single-joint configuration. -/
def one_handle_state : ControllerState String ℚ :=
  { joint_handles := ["handle_j1"]
    interfaces := ["velocity"]
    rt_command := none
    joints_command_subscriber := true }

/-- Environment requesting joint `"j1"` against a registry with no joints
registered: the availability check fails. -/
def unavailable_env : ConfigureEnv String :=
  { joints_param := some ["j1"]
    interface_param := some "velocity"
    resource_manager := some (sel_registry []) }

/-- Environment requesting joint `"j1"` against a registry whose claims all
fail although availability checks pass. -/
def claim_fail_env : ConfigureEnv String :=
  { joints_param := some ["j1"]
    interface_param := some "velocity"
    resource_manager := some claim_fail_registry }

/-- First configuration attempt of the reconfigure scenario: joint
`"missing"` is not registered, only `"j1"` is. -/
def reconf_env1 : ConfigureEnv String :=
  { joints_param := some ["missing"]
    interface_param := some "velocity"
    resource_manager := some (sel_registry ["j1"]) }

/-- Corrected second configuration attempt of the reconfigure scenario. -/
def reconf_env2 : ConfigureEnv String :=
  { joints_param := some ["j1"]
    interface_param := some "velocity"
    resource_manager := some (sel_registry ["j1"]) }

/-- Environment requesting joints `["j1","j2"]` against the all-available
registry. -/
def two_joint_env : ConfigureEnv String :=
  { joints_param := some ["j1", "j2"]
    interface_param := some "velocity"
    resource_manager := some good_registry }

/-- The claim loop never changes `interfaces_`. -/
theorem claim_loop_interfaces_eq (rm : Registry H) (names : List String)
    (s : ControllerState H α) :
    ((claim_loop rm names s).2).interfaces = s.interfaces := by
  induction names generalizing s with
  | nil => rfl
  | cons n rest ih =>
    cases h : rm.claim_command_handle n s.interfaces with
    | none => simp [claim_loop, h]
    | some h0 =>
      simp only [claim_loop, h]
      exact ih _

/-- The claim loop never changes the realtime buffer slot. -/
theorem claim_loop_rt_command_eq (rm : Registry H) (names : List String)
    (s : ControllerState H α) :
    ((claim_loop rm names s).2).rt_command = s.rt_command := by
  induction names generalizing s with
  | nil => rfl
  | cons n rest ih =>
    cases h : rm.claim_command_handle n s.interfaces with
    | none => simp [claim_loop, h]
    | some h0 =>
      simp only [claim_loop, h]
      exact ih _

/-- If some requested joint's claim fails, the claim loop returns `ERROR`
with `joint_handles_` cleared (and no other member changed), regardless of
how many earlier claims succeeded and of the entry contents of
`joint_handles_`. -/
theorem claim_loop_fail (rm : Registry H) (names : List String)
    (s : ControllerState H α)
    (h : ∃ j ∈ names, rm.claim_command_handle j s.interfaces = none) :
    claim_loop rm names s = (CallbackReturn.ERROR, { s with joint_handles := [] }) := by
  induction names generalizing s with
  | nil => simp at h
  | cons n rest ih =>
    obtain ⟨j, hj, hnone⟩ := h
    rcases List.mem_cons.mp hj with rfl | hjr
    · simp [claim_loop, hnone]
    · cases hcl : rm.claim_command_handle n s.interfaces with
      | none => simp [claim_loop, hcl]
      | some h0 =>
        simp only [claim_loop, hcl]
        exact ih { s with joint_handles := s.joint_handles ++ [h0] } ⟨j, hjr, hnone⟩

/-- If every requested joint's claim succeeds, the claim loop returns
`SUCCESS`, appends exactly the registry's in-order claim results to
`joint_handles_`, and creates the subscription. -/
theorem claim_loop_success_ex (rm : Registry H) (names : List String)
    (s : ControllerState H α)
    (h : ∀ j ∈ names, (rm.claim_command_handle j s.interfaces).isSome = true) :
    ∃ hs : List H,
      claim_loop rm names s =
        (CallbackReturn.SUCCESS,
          { s with joint_handles := s.joint_handles ++ hs
                   joints_command_subscriber := true }) ∧
      claim_all rm s.interfaces names = some hs := by
  induction names generalizing s with
  | nil => exact ⟨[], by simp [claim_loop], rfl⟩
  | cons n rest ih =>
    have hn := h n (List.mem_cons_self n rest)
    obtain ⟨h0, hh0⟩ := Option.isSome_iff_exists.mp hn
    have hrest : ∀ j ∈ rest,
        (rm.claim_command_handle j
          ({ s with joint_handles := s.joint_handles ++ [h0] } :
            ControllerState H α).interfaces).isSome = true := by
      intro j hj
      exact h j (List.mem_cons_of_mem _ hj)
    obtain ⟨hs, heq, hmap⟩ := ih _ hrest
    have hmap2 : claim_all rm s.interfaces rest = some hs := hmap
    refine ⟨h0 :: hs, ?_, by simp [claim_all, hh0, hmap2]⟩
    simp only [claim_loop, hh0]
    rw [heq]
    simp [List.append_assoc]

/-- The pointwise reading of a successful `claim_all` run: the result has one
handle per name, and the `i`-th handle is the registry's claim result for the
`i`-th name. -/
theorem claim_all_get (rm : Registry H) (ifs : List String) :
    ∀ (names : List String) (hs : List H), claim_all rm ifs names = some hs →
      hs.length = names.length ∧
      ∀ i (h1 : i < names.length) (h2 : i < hs.length),
        rm.claim_command_handle (names.get ⟨i, h1⟩) ifs = some (hs.get ⟨i, h2⟩) := by
  intro names
  induction names with
  | nil =>
    intro hs h
    simp only [claim_all, Option.some.injEq] at h
    subst h
    refine ⟨rfl, ?_⟩
    intro i h1 _
    exact absurd h1 (Nat.not_lt_zero i)
  | cons n rest ih =>
    intro hs h
    cases hcl : rm.claim_command_handle n ifs with
    | none =>
      simp only [claim_all, hcl] at h
      exact Option.noConfusion h
    | some h0 =>
      cases hrest : claim_all rm ifs rest with
      | none =>
        simp only [claim_all, hcl, hrest] at h
        exact Option.noConfusion h
      | some hs2 =>
        simp only [claim_all, hcl, hrest, Option.some.injEq] at h
        subst h
        obtain ⟨hlen, hpt⟩ := ih hs2 hrest
        refine ⟨by simp [hlen], ?_⟩
        intro i h1 h2
        cases i with
        | zero => exact hcl
        | succ k =>
          exact hpt k (Nat.lt_of_succ_lt_succ h1) (Nat.lt_of_succ_lt_succ h2)

/-- If the claim loop reports `SUCCESS`, every requested claim succeeded. -/
theorem claim_loop_all_some_of_success (rm : Registry H) (names : List String)
    (s : ControllerState H α)
    (h : (claim_loop rm names s).1 = CallbackReturn.SUCCESS) :
    ∀ j ∈ names, (rm.claim_command_handle j s.interfaces).isSome = true := by
  intro j hj
  by_contra hns
  have hnone : rm.claim_command_handle j s.interfaces = none := by
    cases hcl : rm.claim_command_handle j s.interfaces with
    | none => rfl
    | some a => rw [hcl] at hns; simp at hns
  rw [claim_loop_fail rm names s ⟨j, hj, hnone⟩] at h
  simp at h

/-- Normal form of a matching-size `update` cycle: `SUCCESS` plus the
in-order trace of `set_command` calls, one per handle, each passing the
one-element value vector and the member `interfaces_`. -/
theorem update_forward_eq (set_command : H → List α → List String → return_type)
    (s : ControllerState H α) (data : List α)
    (hcmd : s.rt_command = some data)
    (hlen : data.length = s.joint_handles.length) :
    update set_command s =
      (return_type.SUCCESS,
        List.zipWith
          (fun joint_handle value =>
            { handle := joint_handle
              values := [value]
              interfaces := s.interfaces
              result := set_command joint_handle [value] s.interfaces })
          s.joint_handles data) := by
  simp [update, hcmd, hlen]

/-- Membership in a `set_command` trace built by `List.zipWith` determines
the interface list of the call. -/
theorem mem_zipWith_calls (set_command : H → List α → List String → return_type)
    (ifs : List String) (l1 : List H) :
    ∀ (l2 : List α) (c : SetCommandCall H α),
      c ∈ List.zipWith
        (fun joint_handle value =>
          SetCommandCall.mk joint_handle [value] ifs
            (set_command joint_handle [value] ifs)) l1 l2 →
      c.interfaces = ifs := by
  induction l1 with
  | nil =>
    intro l2 c hc
    simp at hc
  | cons a l ih =>
    intro l2 c hc
    cases l2 with
    | nil => simp at hc
    | cons b rest =>
      rw [List.zipWith_cons_cons] at hc
      rcases List.mem_cons.mp hc with rfl | h2
      · rfl
      · exact ih rest c h2

/-- Every `set_command` call in an `update` trace passes the member
`interfaces_`. -/
theorem update_trace_interfaces (set_command : H → List α → List String → return_type)
    (s : ControllerState H α) (c : SetCommandCall H α)
    (hc : c ∈ (update set_command s).2) :
    c.interfaces = s.interfaces := by
  cases hcmd : s.rt_command with
  | none => simp [update, hcmd] at hc
  | some data =>
    by_cases hlen : data.length ≠ s.joint_handles.length
    · simp [update, hcmd, hlen] at hc
    · rw [update_forward_eq set_command s data hcmd (by omega)] at hc
      exact mem_zipWith_calls set_command s.interfaces s.joint_handles data c hc

/-- Every `on_configure` call that passes the parameter-presence and
non-emptiness checks appends the configured interface name to `interfaces_`,
on every exit path (resource-manager lock failure, availability failure,
claim failure or success). -/
theorem on_configure_pushes_interface (env : ConfigureEnv H)
    (s : ControllerState H α) (names : List String) (ifn : String)
    (hj : env.joints_param = some names) (hi : env.interface_param = some ifn)
    (hn : names ≠ []) (hif : ifn ≠ "") :
    (on_configure env s).2.interfaces = s.interfaces ++ [ifn] := by
  simp only [on_configure, hj, hi, if_neg hn, if_neg hif]
  cases hrm : env.resource_manager with
  | none => rfl
  | some rm =>
    by_cases hall : (names.all
        (fun joint_name =>
          rm.check_command_interfaces joint_name (s.interfaces ++ [ifn]))) = true
    · simp only [if_pos hall]
      exact claim_loop_interfaces_eq rm names _
    · simp only [if_neg hall]

/-- No exit path of `on_configure` ever removes elements from
`interfaces_`. -/
theorem on_configure_extends_interfaces (env : ConfigureEnv H)
    (s : ControllerState H α) :
    ∃ t, (on_configure env s).2.interfaces = s.interfaces ++ t := by
  cases hj : env.joints_param with
  | none => exact ⟨[], by simp [on_configure, hj]⟩
  | some names =>
    cases hi : env.interface_param with
    | none => exact ⟨[], by simp [on_configure, hj, hi]⟩
    | some ifn =>
      by_cases hn : names = []
      · exact ⟨[], by simp [on_configure, hj, hi, hn]⟩
      · by_cases hif : ifn = ""
        · exact ⟨[], by simp [on_configure, hj, hi, hn, hif]⟩
        · exact ⟨[ifn], on_configure_pushes_interface env s names ifn hj hi hn hif⟩

/-- Across a chain of `on_configure` calls that each pass the early checks,
`interfaces_` grows by exactly one entry per call. -/
theorem configure_chain_length (envs : List (ConfigureEnv H))
    (s : ControllerState H α)
    (h : ∀ env ∈ envs, early_checks env) :
    (configure_chain envs s).interfaces.length = s.interfaces.length + envs.length := by
  induction envs generalizing s with
  | nil => simp [configure_chain]
  | cons env rest ih =>
    obtain ⟨names, ifn, hj, hn, hi, hif⟩ := h env (List.mem_cons_self env rest)
    have hpush := on_configure_pushes_interface env s names ifn hj hi hn hif
    simp only [configure_chain]
    rw [ih _ (fun e he => h e (List.mem_cons_of_mem _ he)), hpush]
    simp only [List.length_append, List.length_cons, List.length_nil]
    omega

/-- Reduction of `on_configure` once the early checks pass and the resource
manager lock succeeds: availability of every joint is checked against the
pushed interface list, then the claim loop runs. -/
theorem on_configure_rm_eq (env : ConfigureEnv H) (s : ControllerState H α)
    (names : List String) (ifn : String) (rm : Registry H)
    (hj : env.joints_param = some names) (hi : env.interface_param = some ifn)
    (hn : names ≠ []) (hif : ifn ≠ "") (hrm : env.resource_manager = some rm) :
    on_configure env s =
      if (names.all (fun joint_name =>
          rm.check_command_interfaces joint_name (s.interfaces ++ [ifn]))) = true then
        claim_loop rm names { s with interfaces := s.interfaces ++ [ifn] }
      else (CallbackReturn.ERROR, { s with interfaces := s.interfaces ++ [ifn] }) := by
  obtain ⟨jp, ip, rmo⟩ := env
  simp only at hj hi hrm
  cases hj
  cases hi
  cases hrm
  simp only [on_configure, if_neg hn, if_neg hif]

/-- Claim C1 (amended): for an `on_configure` attempt that starts with an
empty Joint Handle Set (as after construction), if at least one requested
joint fails the availability check or the claim, then `on_configure` returns
`ERROR` and `joint_handles_` is empty afterwards, regardless of how many
earlier joints in the list had already been claimed in that attempt.  (The
clause about starting from an empty set is needed: an availability-check
failure leaves a non-empty entry `joint_handles_` untouched, see the
counterexample.) -/
theorem configure_fail_empty_handles_of_fresh (env : ConfigureEnv H)
    (s : ControllerState H α) (names : List String) (ifn : String) (rm : Registry H)
    (h0 : s.joint_handles = [])
    (hj : env.joints_param = some names) (hi : env.interface_param = some ifn)
    (hn : names ≠ []) (hif : ifn ≠ "") (hrm : env.resource_manager = some rm)
    (hfail : (∃ j ∈ names, rm.check_command_interfaces j (s.interfaces ++ [ifn]) = false) ∨
             (∃ j ∈ names, rm.claim_command_handle j (s.interfaces ++ [ifn]) = none)) :
    (on_configure env s).1 = CallbackReturn.ERROR ∧
    (on_configure env s).2.joint_handles = [] := by
  rw [on_configure_rm_eq env s names ifn rm hj hi hn hif hrm]
  by_cases hall : (names.all (fun joint_name =>
      rm.check_command_interfaces joint_name (s.interfaces ++ [ifn]))) = true
  · have hclaim : ∃ j ∈ names,
        rm.claim_command_handle j (s.interfaces ++ [ifn]) = none := by
      rcases hfail with ⟨j, hjm, hfalse⟩ | hcl
      · exfalso
        have htrue := List.all_eq_true.mp hall j hjm
        rw [hfalse] at htrue
        exact Bool.noConfusion htrue
      · exact hcl
    rw [if_pos hall,
      claim_loop_fail rm names { s with interfaces := s.interfaces ++ [ifn] } hclaim]
    exact ⟨rfl, rfl⟩
  · rw [if_neg hall]
    exact ⟨rfl, h0⟩

/-- Witness for Claim C1 (amended): a fresh controller configured for joint
`"j1"` against a registry whose claim fails returns `ERROR` with an empty
`joint_handles_`. -/
theorem configure_fail_empty_handles_witness :
    (on_configure claim_fail_env (initial_state String ℚ)).1 = CallbackReturn.ERROR ∧
    (on_configure claim_fail_env (initial_state String ℚ)).2.joint_handles = [] :=
  configure_fail_empty_handles_of_fresh claim_fail_env (initial_state String ℚ)
    ["j1"] "velocity" claim_fail_registry rfl rfl rfl (by decide) (by decide) rfl
    (Or.inr ⟨"j1", by decide, rfl⟩)

/-- Counterexample to Claim C1 as stated: starting from a controller that
already holds a claimed handle, an `on_configure` run in which the requested
joint `"j1"` fails the availability check returns `ERROR` but leaves
`joint_handles_` non-empty (the stale handle is retained, because the
availability-failure exit path never touches `joint_handles_`). -/
theorem configure_check_fail_keeps_stale_handles :
    (sel_registry []).check_command_interfaces "j1" ["velocity", "velocity"] = false ∧
    (on_configure unavailable_env one_handle_state).1 = CallbackReturn.ERROR ∧
    (on_configure unavailable_env one_handle_state).2.joint_handles = ["handle_j1"] ∧
    (on_configure unavailable_env one_handle_state).2.joint_handles ≠ [] :=
  ⟨rfl, rfl, rfl, by decide⟩

/-- Claim C2: when the mailbox holds a message whose length equals the number
of claimed joint handles, `update` calls `set_command` on `joint_handles_[i]`
with the one-element value vector `[data[i]]` and the member interface list,
for each index `i` in ascending order (the `zipWith` trace lists the calls in
execution order), and returns `SUCCESS`. -/
theorem update_forwards_in_order (set_command : H → List α → List String → return_type)
    (s : ControllerState H α) (data : List α)
    (hcmd : s.rt_command = some data)
    (hlen : data.length = s.joint_handles.length) :
    update set_command s =
      (return_type.SUCCESS,
        List.zipWith
          (fun joint_handle value =>
            { handle := joint_handle
              values := [value]
              interfaces := s.interfaces
              result := set_command joint_handle [value] s.interfaces })
          s.joint_handles data) :=
  update_forward_eq set_command s data hcmd hlen

/-- Witness for Claim C2, the concrete P6 scenario: joints
`["j1","j2","j3"]`, interface `"velocity"`, message `[1, 2, 3]`; handle 0
receives `set_command([1], ["velocity"])`, handle 1 `set_command([2],
["velocity"])`, handle 2 `set_command([3], ["velocity"])`, in that order. -/
theorem update_forwards_in_order_witness :
    p6_loaded.joint_handles = ["handle_j1", "handle_j2", "handle_j3"] ∧
    p6_loaded.rt_command = some [1, 2, 3] ∧
    update all_ok_set_command p6_loaded =
      (return_type.SUCCESS,
        [{ handle := "handle_j1", values := [1], interfaces := ["velocity"],
           result := return_type.SUCCESS },
         { handle := "handle_j2", values := [2], interfaces := ["velocity"],
           result := return_type.SUCCESS },
         { handle := "handle_j3", values := [3], interfaces := ["velocity"],
           result := return_type.SUCCESS }]) :=
  ⟨rfl, rfl,
    (update_forwards_in_order all_ok_set_command p6_loaded [1, 2, 3] rfl rfl).trans rfl⟩

/-- Claim C3: when the mailbox message length differs from the number of
claimed handles, `update` returns `ERROR` with an empty `set_command` trace,
and the controller keeps running: a subsequent cycle on the same controller
with a corrected message returns `SUCCESS`. -/
theorem update_size_mismatch_rejects (set_command : H → List α → List String → return_type)
    (s : ControllerState H α) (data : List α)
    (hcmd : s.rt_command = some data)
    (hlen : data.length ≠ s.joint_handles.length) :
    update set_command s = (return_type.ERROR, []) ∧
    ∀ data' : List α, data'.length = s.joint_handles.length →
      (update set_command (writeFromNonRT data' s)).1 = return_type.SUCCESS := by
  constructor
  · simp [update, hcmd, hlen]
  · intro data' hlen'
    rw [update_forward_eq set_command (writeFromNonRT data' s) data' rfl hlen']

/-- Witness for Claim C3: a two-element message against three claimed handles
is rejected with no writes, and a corrected three-element message on the next
cycle is forwarded with `SUCCESS`. -/
theorem update_size_mismatch_rejects_witness :
    update all_ok_set_command p6_short = (return_type.ERROR, []) ∧
    (update all_ok_set_command (writeFromNonRT [4, 5, 6] p6_short)).1 =
      return_type.SUCCESS := by
  have h := update_size_mismatch_rejects all_ok_set_command p6_short [1, 2] rfl (by decide)
  exact ⟨h.1, h.2 [4, 5, 6] rfl⟩

/-- Claim C4: an `update` cycle run while the realtime buffer still holds its
initial `nullptr` (no command message ever written) returns `SUCCESS` and
performs no `set_command` call. -/
theorem update_no_command_noop (set_command : H → List α → List String → return_type)
    (s : ControllerState H α) (h : s.rt_command = none) :
    update set_command s = (return_type.SUCCESS, []) := by
  simp [update, h]

/-- Witness for Claim C4: a freshly configured controller that has received
no message runs an `update` cycle with `SUCCESS` and an empty trace. -/
theorem update_no_command_noop_witness :
    update all_ok_set_command p6_state = (return_type.SUCCESS, []) :=
  update_no_command_noop all_ok_set_command p6_state rfl

/-- Claim C6 (amended): `on_deactivate` returns `SUCCESS` and leaves
`joint_handles_` exactly as it was: this core retains ownership of every
claimed handle past the deactivate transition and performs no release (the
source body is a bare `return CallbackReturn::SUCCESS`). -/
theorem deactivate_retains_all_handles (s : ControllerState H α) :
    (on_deactivate s).1 = CallbackReturn.SUCCESS ∧
    (on_deactivate s).2.joint_handles = s.joint_handles :=
  ⟨rfl, rfl⟩

/-- Witness for Claim C6 (amended) at a controller holding one handle. -/
theorem deactivate_retains_all_handles_witness :
    (on_deactivate one_handle_state).1 = CallbackReturn.SUCCESS ∧
    (on_deactivate one_handle_state).2.joint_handles = ["handle_j1"] :=
  deactivate_retains_all_handles one_handle_state

/-- Counterexample to Claim C6 as stated: after `on_deactivate` on a
controller holding a claimed handle, the Joint Handle Set still holds that
handle — it is not destroyed or released by the transition. -/
theorem deactivate_keeps_handle_ownership :
    (on_deactivate one_handle_state).2.joint_handles = ["handle_j1"] ∧
    (on_deactivate one_handle_state).2.joint_handles ≠ [] :=
  ⟨rfl, by decide⟩

/-- Claim C7: `on_activate` and `on_deactivate`, from any state, return
`SUCCESS` and change nothing: the whole controller state (joint handles,
interfaces, mailbox slot, subscription) is returned untouched; neither
function even receives the registry, so no claim or release can occur. -/
theorem activate_deactivate_frame (s : ControllerState H α) :
    on_activate s = (CallbackReturn.SUCCESS, s) ∧
    on_deactivate s = (CallbackReturn.SUCCESS, s) :=
  ⟨rfl, rfl⟩

/-- Witness for Claim C7 at a configured controller state. -/
theorem activate_deactivate_frame_witness :
    on_activate p6_loaded = (CallbackReturn.SUCCESS, p6_loaded) ∧
    on_deactivate p6_loaded = (CallbackReturn.SUCCESS, p6_loaded) :=
  activate_deactivate_frame p6_loaded

/-- Claim C9: on a matching-size cycle, `update` returns `SUCCESS` whatever
results the individual `set_command` calls produce; a per-handle failure does
not abort the remaining writes (the trace always has one call per handle) and
the handles, values and interface arguments of the calls do not depend on the
results. -/
theorem update_ignores_set_command_results (s : ControllerState H α) (data : List α)
    (hcmd : s.rt_command = some data)
    (hlen : data.length = s.joint_handles.length)
    (res res' : H → List α → List String → return_type) :
    (update res s).1 = return_type.SUCCESS ∧
    (update res s).2.length = s.joint_handles.length ∧
    (update res s).2.map (fun c => (c.handle, c.values, c.interfaces)) =
      (update res' s).2.map (fun c => (c.handle, c.values, c.interfaces)) := by
  rw [update_forward_eq res s data hcmd hlen, update_forward_eq res' s data hcmd hlen]
  refine ⟨rfl, ?_, ?_⟩
  · simp [List.length_zipWith, hlen]
  · simp [List.map_zipWith]

/-- Witness for Claim C9: even when every `set_command` call fails, the cycle
reports `SUCCESS`, all three handles are written, and the calls coincide
(apart from the recorded results) with those of an all-success run. -/
theorem update_ignores_set_command_results_witness :
    (update all_fail_set_command p6_loaded).1 = return_type.SUCCESS ∧
    (update all_fail_set_command p6_loaded).2.length = 3 ∧
    (update all_fail_set_command p6_loaded).2.map (fun c => (c.handle, c.values, c.interfaces)) =
      (update all_ok_set_command p6_loaded).2.map (fun c => (c.handle, c.values, c.interfaces)) :=
  update_ignores_set_command_results p6_loaded [1, 2, 3] rfl rfl
    all_fail_set_command all_ok_set_command

/-- Claim C8 (amended): every `on_configure` run that returns `SUCCESS` and
starts with an empty Joint Handle Set ends with `len(joint_handles_) =
len(joint_names)`, and for every index `i`, `joint_handles_[i]` is exactly the
handle the registry's claim call returned for `joint_names[i]` (requested
with the pushed interface list).  The empty-start clause is needed: a
successful run appends to whatever `joint_handles_` already held, see the
counterexample. -/
theorem configure_success_alignment_of_fresh (env : ConfigureEnv H)
    (s : ControllerState H α) (names : List String) (ifn : String) (rm : Registry H)
    (h0 : s.joint_handles = [])
    (hj : env.joints_param = some names) (hi : env.interface_param = some ifn)
    (hrm : env.resource_manager = some rm)
    (hsucc : (on_configure env s).1 = CallbackReturn.SUCCESS) :
    (on_configure env s).2.joint_handles.length = names.length ∧
    claim_all rm (s.interfaces ++ [ifn]) names =
      some ((on_configure env s).2.joint_handles) ∧
    ∀ i (h1 : i < names.length)
        (h2 : i < (on_configure env s).2.joint_handles.length),
      rm.claim_command_handle (names.get ⟨i, h1⟩) (s.interfaces ++ [ifn]) =
        some ((on_configure env s).2.joint_handles.get ⟨i, h2⟩) := by
  by_cases hn : names = []
  · simp [on_configure, hj, hi, hn] at hsucc
  by_cases hif : ifn = ""
  · simp [on_configure, hj, hi, hn, hif] at hsucc
  have hred := on_configure_rm_eq env s names ifn rm hj hi hn hif hrm
  by_cases hall : (names.all (fun joint_name =>
      rm.check_command_interfaces joint_name (s.interfaces ++ [ifn]))) = true
  · have hred2 : on_configure env s =
        claim_loop rm names { s with interfaces := s.interfaces ++ [ifn] } := by
      rw [hred, if_pos hall]
    rw [hred2] at hsucc
    have hall2 := claim_loop_all_some_of_success rm names _ hsucc
    obtain ⟨hs, heq, hmap⟩ := claim_loop_success_ex rm names _ hall2
    have hred3 := hred2.trans heq
    have hjh : (on_configure env s).2.joint_handles = hs := by
      rw [hred3]
      simp [h0]
    have hmap2 : claim_all rm (s.interfaces ++ [ifn]) names =
        some ((on_configure env s).2.joint_handles) := by
      rw [hjh]
      exact hmap
    obtain ⟨hlen, hpt⟩ := claim_all_get rm (s.interfaces ++ [ifn]) names
      ((on_configure env s).2.joint_handles) hmap2
    exact ⟨hlen, hmap2, hpt⟩
  · rw [hred, if_neg hall] at hsucc
    simp at hsucc

/-- Witness for Claim C8 (amended): a fresh controller configured for
`["j1","j2"]` against the all-available registry gets exactly two handles,
and they are the registry's handles for `"j1"` and `"j2"` in that order. -/
theorem configure_success_alignment_witness :
    (on_configure two_joint_env (initial_state String ℚ)).2.joint_handles.length = 2 ∧
    (on_configure two_joint_env (initial_state String ℚ)).2.joint_handles =
      ["handle_j1", "handle_j2"] :=
  ⟨(configure_success_alignment_of_fresh two_joint_env (initial_state String ℚ)
      ["j1", "j2"] "velocity" good_registry rfl rfl rfl rfl rfl).1, rfl⟩

/-- Counterexample to Claim C8 as stated: a successful `on_configure` run on
a controller that already held a claimed handle (the source never clears
`joint_handles_` on entry) ends with three handles for a two-joint list, so
`len(joint_handles_) ≠ len(joint_names)` and index alignment fails. -/
theorem configure_success_misaligned_on_residue :
    (on_configure two_joint_env one_handle_state).1 = CallbackReturn.SUCCESS ∧
    (on_configure two_joint_env one_handle_state).2.joint_handles =
      ["handle_j1", "handle_j1", "handle_j2"] ∧
    (on_configure two_joint_env one_handle_state).2.joint_handles.length ≠ 2 :=
  ⟨rfl, rfl, by decide⟩

/-- Claim C5 (amended): after an `on_configure` that failed because a joint
was unavailable, a second `on_configure` with a corrected joint list succeeds
and populates a full, index-aligned handle set — provided the registry
accepts the accumulated two-entry interface list, because the failed attempt
left its pushed interface name behind: the second run's `interfaces_` is
`[ifn, ifn]`, not the `[ifn]` of a first-time successful configure, and that
accumulated list is what the second run's availability checks and claims
receive. -/
theorem reconfigure_after_unavailable (H α : Type) (names1 names2 : List String)
    (ifn : String) (rm : Registry H)
    (hn1 : names1 ≠ []) (hn2 : names2 ≠ []) (hif : ifn ≠ "")
    (hfail : ∃ j ∈ names1, rm.check_command_interfaces j [ifn] = false)
    (hok : ∀ j ∈ names2, rm.check_command_interfaces j [ifn, ifn] = true)
    (hclaim : ∀ j ∈ names2, (rm.claim_command_handle j [ifn, ifn]).isSome = true) :
    (on_configure ⟨some names1, some ifn, some rm⟩ (initial_state H α)).1 =
      CallbackReturn.ERROR ∧
    (on_configure ⟨some names1, some ifn, some rm⟩ (initial_state H α)).2.joint_handles
      = [] ∧
    (on_configure ⟨some names2, some ifn, some rm⟩
        (on_configure ⟨some names1, some ifn, some rm⟩ (initial_state H α)).2).1 =
      CallbackReturn.SUCCESS ∧
    (on_configure ⟨some names2, some ifn, some rm⟩
        (on_configure ⟨some names1, some ifn, some rm⟩
          (initial_state H α)).2).2.joint_handles.length = names2.length ∧
    (on_configure ⟨some names2, some ifn, some rm⟩
        (on_configure ⟨some names1, some ifn, some rm⟩
          (initial_state H α)).2).2.interfaces = [ifn, ifn] := by
  have hallf : ¬ (names1.all (fun joint_name =>
      rm.check_command_interfaces joint_name
        ((initial_state H α).interfaces ++ [ifn]))) = true := by
    intro hall
    obtain ⟨j, hjm, hfalse⟩ := hfail
    have h2 : rm.check_command_interfaces j [ifn] = true :=
      List.all_eq_true.mp hall j hjm
    rw [hfalse] at h2
    exact Bool.noConfusion h2
  have r1eq : on_configure ⟨some names1, some ifn, some rm⟩ (initial_state H α) =
      (CallbackReturn.ERROR,
        { initial_state H α with
            interfaces := (initial_state H α).interfaces ++ [ifn] }) := by
    rw [on_configure_rm_eq _ _ names1 ifn rm rfl rfl hn1 hif rfl, if_neg hallf]
  have hallt : (names2.all (fun joint_name =>
      rm.check_command_interfaces joint_name
        (({ initial_state H α with
            interfaces := (initial_state H α).interfaces ++ [ifn] } :
          ControllerState H α).interfaces ++ [ifn]))) = true := by
    apply List.all_eq_true.mpr
    intro j hj
    exact hok j hj
  have hclaim2 : ∀ j ∈ names2,
      (rm.claim_command_handle j
        ({ initial_state H α with
            interfaces := ((initial_state H α).interfaces ++ [ifn]) ++ [ifn] } :
          ControllerState H α).interfaces).isSome = true := by
    intro j hj
    exact hclaim j hj
  obtain ⟨hs, heq, hmap⟩ := claim_loop_success_ex rm names2 _ hclaim2
  have hlen := (claim_all_get rm _ names2 hs hmap).1
  have r2eq : on_configure ⟨some names2, some ifn, some rm⟩
      ({ initial_state H α with
          interfaces := (initial_state H α).interfaces ++ [ifn] } :
        ControllerState H α) =
      claim_loop rm names2
        { initial_state H α with
            interfaces := ((initial_state H α).interfaces ++ [ifn]) ++ [ifn] } := by
    rw [on_configure_rm_eq _ _ names2 ifn rm rfl rfl hn2 hif rfl, if_pos hallt]
  rw [r1eq]
  rw [r2eq, heq]
  exact ⟨rfl, rfl, rfl, hlen, rfl⟩

/-- Witness for Claim C5 (amended): first attempt with joint `"missing"`
fails the availability check; the corrected attempt with `"j1"` succeeds with
one claimed handle, and `interfaces_` ends as
`["velocity", "velocity"]`. -/
theorem reconfigure_after_unavailable_witness :
    (on_configure reconf_env1 (initial_state String ℚ)).1 = CallbackReturn.ERROR ∧
    (on_configure reconf_env1 (initial_state String ℚ)).2.joint_handles = [] ∧
    (on_configure reconf_env2
        (on_configure reconf_env1 (initial_state String ℚ)).2).1 =
      CallbackReturn.SUCCESS ∧
    (on_configure reconf_env2
        (on_configure reconf_env1 (initial_state String ℚ)).2).2.joint_handles.length = 1 ∧
    (on_configure reconf_env2
        (on_configure reconf_env1 (initial_state String ℚ)).2).2.interfaces =
      ["velocity", "velocity"] :=
  reconfigure_after_unavailable String ℚ ["missing"] ["j1"] "velocity"
    (sel_registry ["j1"]) (by decide) (by decide) (by decide)
    ⟨"missing", by decide, rfl⟩ (by decide) (by decide)

/-- Counterexample to Claim C5 as stated: the reconfigured controller is not
in the same state a first-time successful configure would produce — the
failed attempt leaves its interface entry behind, so `interfaces_` is
`["velocity", "velocity"]` instead of `["velocity"]`, and this residue is
what later claims and `set_command` calls receive. -/
theorem reconfigure_residual_interfaces :
    (on_configure reconf_env1 (initial_state String ℚ)).1 = CallbackReturn.ERROR ∧
    (on_configure reconf_env2
        (on_configure reconf_env1 (initial_state String ℚ)).2).1 =
      CallbackReturn.SUCCESS ∧
    (on_configure reconf_env2
        (on_configure reconf_env1 (initial_state String ℚ)).2).2.interfaces =
      ["velocity", "velocity"] ∧
    (on_configure reconf_env2 (initial_state String ℚ)).2.interfaces = ["velocity"] ∧
    (on_configure reconf_env2
        (on_configure reconf_env1 (initial_state String ℚ)).2).2.interfaces ≠
      (on_configure reconf_env2 (initial_state String ℚ)).2.interfaces :=
  ⟨rfl, rfl, rfl, rfl, by decide⟩

/-- Claim C10: every `on_configure` call that passes the parameter-presence
and non-emptiness checks appends the configured interface name to
`interfaces_` on every exit path; no path removes entries; after `n` such
calls `interfaces_` has grown by `n` entries; the availability checks of a
configure run receive the accumulated member list (last conjunct), as does
every `set_command` call of an `update` cycle (fourth conjunct); the claim
calls receive it too, as `claim_loop` passes the member `interfaces_`
(witnessed through `configure_success_alignment_of_fresh`). -/
theorem interfaces_accumulate (H α : Type) :
    (∀ (env : ConfigureEnv H) (s : ControllerState H α) (names : List String) (ifn : String),
        env.joints_param = some names → names ≠ [] →
        env.interface_param = some ifn → ifn ≠ "" →
        (on_configure env s).2.interfaces = s.interfaces ++ [ifn]) ∧
    (∀ (env : ConfigureEnv H) (s : ControllerState H α),
        ∃ t, (on_configure env s).2.interfaces = s.interfaces ++ t) ∧
    (∀ (envs : List (ConfigureEnv H)) (s : ControllerState H α),
        (∀ env ∈ envs, early_checks env) →
        (configure_chain envs s).interfaces.length = s.interfaces.length + envs.length) ∧
    (∀ (set_command : H → List α → List String → return_type)
        (s : ControllerState H α) (c : SetCommandCall H α),
        c ∈ (update set_command s).2 → c.interfaces = s.interfaces) ∧
    (∀ (env : ConfigureEnv H) (s : ControllerState H α)
        (names : List String) (ifn : String) (rm : Registry H),
        env.joints_param = some names → env.interface_param = some ifn →
        names ≠ [] → ifn ≠ "" → env.resource_manager = some rm →
        on_configure env s =
          if (names.all (fun joint_name =>
              rm.check_command_interfaces joint_name (s.interfaces ++ [ifn]))) = true then
            claim_loop rm names { s with interfaces := s.interfaces ++ [ifn] }
          else (CallbackReturn.ERROR, { s with interfaces := s.interfaces ++ [ifn] })) :=
  ⟨fun env s names ifn hj hn hi hif =>
      on_configure_pushes_interface env s names ifn hj hi hn hif,
   fun env s => on_configure_extends_interfaces env s,
   fun envs s h => configure_chain_length envs s h,
   fun set_command s c hc => update_trace_interfaces set_command s c hc,
   fun env s names ifn rm hj hi hn hif hrm =>
      on_configure_rm_eq env s names ifn rm hj hi hn hif hrm⟩

/-- Witness for Claim C10: two configure attempts that both pass the early
checks but fail at the availability stage leave `interfaces_` with two
(identical) entries. -/
theorem interfaces_accumulate_witness :
    (configure_chain [unavailable_env, unavailable_env]
      (initial_state String ℚ)).interfaces.length = 0 + 2 := by
  have hec : ∀ env ∈ [unavailable_env, unavailable_env], early_checks env := by
    intro env henv
    have henv2 : env = unavailable_env := by
      rcases List.mem_cons.mp henv with rfl | h2
      · rfl
      · rcases List.mem_cons.mp h2 with rfl | h3
        · rfl
        · exact absurd h3 (List.not_mem_nil env)
    rw [henv2]
    exact ⟨["j1"], "velocity", rfl, by decide, rfl, by decide⟩
  exact (interfaces_accumulate String ℚ).2.2.1 [unavailable_env, unavailable_env]
    (initial_state String ℚ) hec

end ForwardCommandController
